import Mathlib

/-!
Shallow embedding of `src/digest.py` (the arsdaily daily-digest batch job)
and proofs of the specification claims about it.

Conventions of the embedding:
* The SQLite `articles` table is modelled as a `List ArticleRecord`; a row's
  `id` is `INTEGER PRIMARY KEY`, which with inserts only (no deletes) is
  assigned as `length + 1`.
* `Storage.store_article` performs the check-then-insert of the Python method
  of the same name: a `SELECT ... WHERE link = ?` existence test, then an
  `INSERT` followed by a commit.  The returned list is the committed state.
* Environment lookups (`os.environ.get`, `os.getenv`) are modelled as
  `Option String` fields of `Env`; Python truthiness of the result (unset or
  empty string is falsy) is `truthy`.
* External I/O outcomes (the HTTP feed response, the SendGrid response
  status, the SES call outcome) are inputs to the model, not effects.
* Python exceptions are modelled by `PyResult`; log lines and calls into the
  render/delivery adapters are recorded as an `Event` trace.
-/

namespace ArsDaily

/-- A parsed RSS feed item (`atoma.rss.RSSItem` as used by the code:
`title`, `link`, `pub_date`, `description`, plus the `pdf_link` attribute
that `get_ars_feed` attaches). -/
structure RSSItem where
  title : String
  link : String
  pub_date : String
  description : String
  pdf_link : Option String := none
  deriving DecidableEq, Repr

/-- One row of the `articles` table (`id`, `title`, `link` UNIQUE,
`published`, `summary`). -/
structure ArticleRecord where
  id : Nat
  title : String
  link : String
  published : String
  summary : String
  deriving DecidableEq, Repr

/-- The links currently present in the store, in row order. -/
def links (s : List ArticleRecord) : List String :=
  s.map (fun r => r.link)

/-- The record `store_article` inserts for `item` when the store has `n`
rows: `INSERT INTO articles (title, link, published, summary)` with the
primary key assigned as `n + 1`. -/
def toRecord (n : Nat) (item : RSSItem) : ArticleRecord :=
  ⟨n + 1, item.title, item.link, item.pub_date, item.description⟩

/-- `Storage.store_article`: checks whether a row with `item.link` exists;
if so returns `False` with no write, otherwise inserts the record, commits,
and returns `True`.  The pair is (returned bool, store state after the
call). -/
def store_article (s : List ArticleRecord) (item : RSSItem) :
    Bool × List ArticleRecord :=
  if s.any (fun r => r.link == item.link) then (false, s)
  else (true, s ++ [toRecord s.length item])

/-- `store_articles`: calls `store_article` for each item in order,
collecting the items for which it returned `True`.  The pair is
(`new_items` as returned, store state after the loop). -/
def store_articles : List ArticleRecord → List RSSItem →
    List RSSItem × List ArticleRecord
  | s, [] => ([], s)
  | s, item :: rest =>
    let p := store_article s item
    let q := store_articles p.2 rest
    (if p.1 then item :: q.1 else q.1, q.2)

example :
    (store_article [] ⟨"t", "L", "d", "x", none⟩).1 = true := by decide

example :
    (store_article [⟨1, "t", "L", "d", "x"⟩] ⟨"t2", "L", "d", "x", none⟩).1
      = false := by decide

example :
    (store_articles []
        [⟨"a", "L", "d", "x", none⟩, ⟨"b", "L", "d", "x", none⟩,
         ⟨"c", "M", "d", "x", none⟩]).1
      = [⟨"a", "L", "d", "x", none⟩, ⟨"c", "M", "d", "x", none⟩] := by decide

/-! ## Feed source: `get_ars_feed` and the print-link derivation

`get_ars_feed` fetches the feed URL, and on `response.ok` parses the items
and, for each one, runs
`article_id = parse_qs(urlparse(item.link).query)["p"][0]` and sets
`item.pdf_link = f"http://arstechnica.com?ARS_PDF={article_id}"`.
The `urlparse`/`parse_qs` library calls are modelled on `List Char`:
the query is the part of the URL after the first `?` and before any `#`;
`parse_qs` splits the query on `&`, splits each field at its first `=`
(fields without `=` or with an empty value are dropped, matching the
default `keep_blank_values=False`), and `["p"][0]` takes the value of the
first `p` field, or fails (Python `KeyError`) when there is none.
Percent-decoding and `+`-decoding of values are not modelled; the theorems
about the derivation restrict the value to undecoded characters. -/

/-- Python string/list truthiness of an `os.getenv` result: unset (`None`)
and the empty string are falsy. -/
def truthy : Option String → Bool
  | none => false
  | some s => !s.isEmpty

/-- A Python exception that the source can raise on the modelled paths. -/
inductive PyExc where
  /-- `KeyError`, from the unguarded `parse_qs(...)["p"]` lookup or from
  `os.environ["RECIPIENT_EMAIL"]`. -/
  | keyError
  /-- `TypeError`, from iterating over `None` in `store_articles` when
  `get_ars_feed` returned `None`. -/
  | typeError
  deriving DecidableEq, Repr

/-- Result of running a piece of Python code: a value, or an uncaught
exception propagating to the caller. -/
inductive PyResult (α : Type) where
  | val (a : α)
  | exc (e : PyExc)
  deriving DecidableEq, Repr

/-- The part of the URL after the first `?` (with any `#fragment` removed
first), as `urlparse(link).query` computes it. -/
def queryOf (l : List Char) : List Char :=
  (((l.takeWhile (fun c => c ≠ '#')).dropWhile (fun c => c ≠ '?')).drop 1)

/-- Split a list at every occurrence of `sep` (the separators are dropped;
`n` separators yield `n + 1` chunks). -/
def splitOnChar (sep : Char) : List Char → List (List Char)
  | [] => [[]]
  | c :: cs =>
    match splitOnChar sep cs with
    | [] => if c = sep then [[], []] else [[c]]
    | h :: t => if c = sep then [] :: h :: t else (c :: h) :: t

/-- Parse one `name=value` field of a query string as `parse_qsl` does with
the default flags: a field with no `=`, or with an empty value, is dropped
(`none`); otherwise the field is split at its first `=`. -/
def parseField (f : List Char) : Option (List Char × List Char) :=
  if '=' ∈ f then
    let value := (f.dropWhile (fun c => c ≠ '=')).drop 1
    if value = [] then none
    else some (f.takeWhile (fun c => c ≠ '='), value)
  else none

/-- `parse_qs(q)[name][0]`: the value of the first field named `name`, or
`none` (modelling the `KeyError`) when no field has that name. -/
def parse_qs_first (q : List Char) (name : List Char) : Option (List Char) :=
  (((splitOnChar '&' q).filterMap parseField).find?
      (fun p => p.1 == name)).map (fun p => p.2)

/-- The print-link derivation of `get_ars_feed` for one link:
`article_id = parse_qs(urlparse(link).query)["p"][0]` substituted into the
fixed template `f"http://arstechnica.com?ARS_PDF={article_id}"`.  `none`
models the `KeyError` when the link has no `p` query parameter. -/
def derive_pdf_link (link : List Char) : Option (List Char) :=
  (parse_qs_first (queryOf link) ("p".data)).map
    (fun v => ("http://arstechnica.com?ARS_PDF=".data) ++ v)

/-- One iteration of the `for item in feed.items` loop of `get_ars_feed`:
attach the derived pdf link, or fail with the `KeyError`. -/
def set_pdf_link (item : RSSItem) : Option RSSItem :=
  (derive_pdf_link item.link.data).map
    (fun v => { item with pdf_link := some (String.mk v) })

/-- The whole loop of `get_ars_feed`: processes the items in order and
fails (`none`, the uncaught `KeyError`) as soon as one link has no `p`
parameter. -/
def set_pdf_links : List RSSItem → Option (List RSSItem)
  | [] => some []
  | item :: rest =>
    match set_pdf_link item with
    | none => none
    | some item' =>
      match set_pdf_links rest with
      | none => none
      | some rest' => some (item' :: rest')

example :
    derive_pdf_link ("https://arstechnica.com/x/index.html?p=1234567".data)
      = some ("http://arstechnica.com?ARS_PDF=1234567".data) := by decide

example :
    derive_pdf_link ("https://arstechnica.com/x/index.html".data)
      = none := by decide

/-! ## Environment, external world, and the observable event trace -/

/-- The environment variables the program reads (`os.environ.get` /
`os.getenv` / `os.environ[...]`), each `none` when unset. -/
structure Env where
  ARS_FEED_URL : Option String := none
  DB_PATH : Option String := none
  SENDGRID_API_KEY : Option String := none
  AWS_ACCESS_KEY_ID : Option String := none
  AWS_REGION : Option String := none
  AWS_SECRET_ACCESS : Option String := none
  FROM_EMAIL : Option String := none
  RECIPIENT_EMAIL : Option String := none
  deriving Repr

/-- Outcome of the `ses.send_email` call inside `call_ses`'s `try` block. -/
inductive SesOutcome where
  /-- the call returns: the success path -/
  | success
  /-- it raises `NoCredentialsError` or `PartialCredentialsError` -/
  | credsError
  /-- it raises any other `Exception` -/
  | otherError
  deriving DecidableEq, Repr

/-- Responses of the external services, inputs to the model: the status
code `sg.send` reports (the code treats `sg.send` as returning a response
object and inspects `response.status_code`), and the outcome of the SES
call. -/
structure BackendWorld where
  sendgrid_status : Nat
  ses_outcome : SesOutcome
  deriving Repr

/-- The HTTP response of `requests.get(url)` for the feed: its `ok` flag
(status < 400), its status code, and the feed items `atoma` parses from
its body when it is ok. -/
structure FeedResponse where
  ok : Bool
  status_code : Nat
  entries : List RSSItem
  deriving Repr

/-- Observable events of one run: log lines and invocations of the render
step and the delivery backends, in program order. -/
inductive Event where
  /-- `log.error(f"Failed to fetch feed: {status}")` in `get_ars_feed` -/
  | logFetchError (status : Nat)
  /-- `prepare_daily_digest` is invoked (the render step) -/
  | renderDigest
  /-- `send_daily_digest` is invoked (the Delivery Adapter) -/
  | sendDigest
  /-- `call_sendgrid` is invoked (the SendGrid backend is chosen) -/
  | callSendgrid
  /-- `log.error(f"Failed to send email: {status}")` in `call_sendgrid` -/
  | logSendgridError (status : Nat)
  /-- `call_ses` is invoked (the SES backend is chosen) -/
  | callSes
  /-- `log.info(f"Sent ... to ...")` in `call_ses` -/
  | logSesSent
  /-- `log.error("Error: AWS SES credentials are not available.")` -/
  | logSesCredsError
  /-- `log.error(f"Error sending email to ...")` in `call_ses` -/
  | logSesError
  /-- `log.error("No email sending service configured")` -/
  | logConfigError
  deriving DecidableEq, Repr

/-! ## Feed fetch, delivery adapter, and the run pipeline -/

/-- `get_ars_feed()`: on a non-ok response it logs the failure and falls
off the end of the function, returning `None` (despite the declared
`-> list[RSSItem]`); on an ok response it parses the items and attaches
the pdf links, raising `KeyError` when a link has no `p` parameter.
The pair is (returned value or exception, logged events). -/
def get_ars_feed (resp : FeedResponse) :
    PyResult (Option (List RSSItem)) × List Event :=
  if resp.ok then
    match set_pdf_links resp.entries with
    | some items => (.val (some items), [])
    | none => (.exc .keyError, [])
  else (.val none, [Event.logFetchError resp.status_code])

/-- `call_sendgrid(recipient, subject, content)`: builds the message,
sends it, and logs an error when the response status is not 202; it
returns normally either way.  The API key and sender address are read from
the environment but do not change the modelled observable behaviour. -/
def call_sendgrid (env : Env) (w : BackendWorld)
    (recipient subject content : String) : PyResult Unit × List Event :=
  (.val (),
    Event.callSendgrid ::
      (if w.sendgrid_status ≠ 202
       then [Event.logSendgridError w.sendgrid_status] else []))

/-- `call_ses(recipient, subject, content)`: attempts `ses.send_email`
inside a `try` that catches the credential errors and every other
`Exception`, logging in each case; it returns normally in all cases. -/
def call_ses (env : Env) (w : BackendWorld)
    (recipient subject content : String) : PyResult Unit × List Event :=
  (.val (),
    Event.callSes ::
      (match w.ses_outcome with
       | .success => [Event.logSesSent]
       | .credsError => [Event.logSesCredsError]
       | .otherError => [Event.logSesError]))

/-- `send_daily_digest(content)`: reads `os.environ["RECIPIENT_EMAIL"]`
(raising `KeyError` when unset), then dispatches on which credential is
truthy: SendGrid first, else SES, else it logs a configuration error and
sends nothing. -/
def send_daily_digest (env : Env) (w : BackendWorld) (content : String) :
    PyResult Unit × List Event :=
  match env.RECIPIENT_EMAIL with
  | none => (.exc .keyError, [])
  | some recipient =>
    if truthy env.SENDGRID_API_KEY then
      call_sendgrid env w recipient "Ars Technica Daily Digest" content
    else if truthy env.AWS_ACCESS_KEY_ID then
      call_ses env w recipient "Ars Technica Daily Digest" content
    else
      (.val (), [Event.logConfigError])

/-- Outcome of one whole run: how the process finished (normally or with
an uncaught exception), the store state after the run, and the event
trace. -/
structure RunResult where
  result : PyResult Unit
  store : List ArticleRecord
  events : List Event
  deriving Repr

/-- `run_daily_digest()`: opens the store (state `s0`), fetches the feed,
stores the items, and — only when there are new items — renders the digest
(`prepare_daily_digest`, whose output is an opaque HTML string irrelevant
to every claim and modelled as the event `renderDigest`) and invokes
`send_daily_digest`.  When `get_ars_feed` returned `None` (failed fetch),
the `for item in items` loop inside `store_articles` raises `TypeError`
on iterating `None`. -/
def run_daily_digest (env : Env) (w : BackendWorld) (resp : FeedResponse)
    (s0 : List ArticleRecord) : RunResult :=
  match get_ars_feed resp with
  | (.exc e, evs) => ⟨.exc e, s0, evs⟩
  | (.val none, evs) => ⟨.exc .typeError, s0, evs⟩
  | (.val (some items), evs) =>
    let p := store_articles s0 items
    if p.1.isEmpty then ⟨.val (), p.2, evs⟩
    else
      let sd := send_daily_digest env w "rendered digest"
      ⟨sd.1, p.2, evs ++ Event.renderDigest :: Event.sendDigest :: sd.2⟩

/-! ## Specification-side characterization and concrete fixtures -/

/-- Written after the spec's words for the order-preservation claim (the
refinement target, to be compared with `store_articles`): keep exactly
those items whose link is neither already `seen` nor the link of an
earlier kept item, in input order. -/
def keepNew (seen : List String) : List RSSItem → List RSSItem
  | [] => []
  | item :: rest =>
    if item.link ∈ seen then keepNew seen rest
    else item :: keepNew (seen ++ [item.link]) rest

/-- Fixture: an item with link `"L"`. -/
def itemA : RSSItem := ⟨"A", "L", "2025-01-01", "sum a", none⟩

/-- Fixture: a second, distinct item that shares link `"L"` with `itemA`. -/
def itemA2 : RSSItem := ⟨"A2", "L", "2025-01-03", "sum a2", none⟩

/-- Fixture: an item with link `"M"`. -/
def itemB : RSSItem := ⟨"B", "M", "2025-01-02", "sum b", none⟩

/-- Fixture: a stored record with link `"L"`. -/
def recL : ArticleRecord := ⟨1, "A0", "L", "2024-12-31", "sum 0"⟩

/-- Fixture: environment with both credential types and a recipient. -/
def envBoth : Env :=
  { SENDGRID_API_KEY := some "sg-key", AWS_ACCESS_KEY_ID := some "aws-key",
    RECIPIENT_EMAIL := some "to@example.com" }

/-- Fixture: environment with only the AWS credential and a recipient. -/
def envSes : Env :=
  { AWS_ACCESS_KEY_ID := some "aws-key",
    RECIPIENT_EMAIL := some "to@example.com" }

/-- Fixture: environment with neither credential but with a recipient. -/
def envNoCreds : Env := { RECIPIENT_EMAIL := some "to@example.com" }

/-- Fixture: both backends would respond successfully. -/
def wOk : BackendWorld := ⟨202, .success⟩

/-- Fixture: both backends would fail (SendGrid 500, SES raises). -/
def wBad : BackendWorld := ⟨500, .otherError⟩

/-- Fixture: a feed item whose link carries a `p` query parameter. -/
def goodItem : RSSItem :=
  ⟨"G", "https://arstechnica.com/x/index.html?p=1234567", "2025-01-04",
   "sum g", none⟩

/-- Fixture: `goodItem` after `get_ars_feed` attached its pdf link. -/
def goodItemP : RSSItem :=
  { goodItem with pdf_link := some "http://arstechnica.com?ARS_PDF=1234567" }

/-- Fixture: a feed item whose link has no query string at all. -/
def badItem : RSSItem :=
  ⟨"Bad", "https://arstechnica.com/x/index.html", "2025-01-05",
   "sum bad", none⟩

/-- Fixture: an ok feed response containing only `goodItem`. -/
def respGood : FeedResponse := ⟨true, 200, [goodItem]⟩

/-- Fixture: an ok feed response containing only `badItem`. -/
def respBad : FeedResponse := ⟨true, 200, [badItem]⟩

/-! ## Helper lemmas about the deduplication store -/

lemma takeWhile_ne_of_not_mem (c : Char) :
    ∀ (l : List Char), c ∉ l → l.takeWhile (fun x => x ≠ c) = l := by
  intro l
  induction l with
  | nil => intro _; rfl
  | cons a t ih =>
    intro h
    rw [List.mem_cons, not_or] at h
    have ha : a ≠ c := fun e => h.1 e.symm
    rw [List.takeWhile_cons, if_pos (by simp [ha]), ih h.2]

lemma dropWhile_to_sep (c : Char) :
    ∀ (pre rest : List Char), c ∉ pre →
      (pre ++ c :: rest).dropWhile (fun x => x ≠ c) = c :: rest := by
  intro pre
  induction pre with
  | nil => intro rest _; simp [List.dropWhile_cons]
  | cons a t ih =>
    intro rest h
    rw [List.mem_cons, not_or] at h
    have ha : a ≠ c := fun e => h.1 e.symm
    rw [List.cons_append, List.dropWhile_cons, if_pos (by simp [ha]),
      ih rest h.2]

lemma splitOnChar_of_not_mem (c : Char) :
    ∀ (l : List Char), c ∉ l → splitOnChar c l = [l] := by
  intro l
  induction l with
  | nil => intro _; rfl
  | cons a t ih =>
    intro h
    rw [List.mem_cons, not_or] at h
    have ha : a ≠ c := fun e => h.1 e.symm
    rw [splitOnChar, ih h.2]
    simp [ha]

lemma queryOf_shape (pre rest : List Char) (hq : '?' ∉ pre)
    (hhp : '#' ∉ pre) (hhr : '#' ∉ rest) :
    queryOf (pre ++ '?' :: rest) = rest := by
  unfold queryOf
  have hnh : '#' ∉ pre ++ '?' :: rest := by
    rw [List.mem_append, List.mem_cons]
    push_neg
    exact ⟨hhp, by decide, hhr⟩
  rw [takeWhile_ne_of_not_mem '#' _ hnh, dropWhile_to_sep '?' pre rest hq]
  rfl

lemma parseField_shape (v : List Char) (hne : v ≠ []) :
    parseField ('p' :: '=' :: v) = some (['p'], v) := by
  have hm : '=' ∈ 'p' :: '=' :: v := by simp
  simp [parseField, hm, List.dropWhile_cons, List.takeWhile_cons, hne]

lemma parse_qs_first_shape (v : List Char) (hne : v ≠ [])
    (hamp : '&' ∉ v) :
    parse_qs_first ('p' :: '=' :: v) ("p".data) = some v := by
  have hnf : '&' ∉ 'p' :: '=' :: v := by
    rw [List.mem_cons, List.mem_cons]
    push_neg
    exact ⟨by decide, by decide, hamp⟩
  unfold parse_qs_first
  rw [splitOnChar_of_not_mem '&' _ hnf]
  rw [show List.filterMap parseField ['p' :: '=' :: v] =
        [(['p'], v)] by simp [parseField_shape v hne]]
  rfl

lemma derive_pdf_link_shape (pre v : List Char) (hq : '?' ∉ pre)
    (hhp : '#' ∉ pre) (hne : v ≠ []) (hamp : '&' ∉ v) (hhv : '#' ∉ v) :
    derive_pdf_link (pre ++ '?' :: 'p' :: '=' :: v) =
      some ("http://arstechnica.com?ARS_PDF=".data ++ v) := by
  have hhr : '#' ∉ 'p' :: '=' :: v := by
    rw [List.mem_cons, List.mem_cons]
    push_neg
    exact ⟨by decide, by decide, hhv⟩
  unfold derive_pdf_link
  rw [queryOf_shape pre _ hq hhp hhr, parse_qs_first_shape v hne hamp]
  rfl

lemma set_pdf_links_eq_none :
    ∀ (l : List RSSItem) (e : RSSItem), e ∈ l → set_pdf_link e = none →
      set_pdf_links l = none := by
  intro l
  induction l with
  | nil => intro e he _; simp at he
  | cons a t ih =>
    intro e he hn
    rcases List.mem_cons.mp he with rfl | he'
    · simp [set_pdf_links, hn]
    · simp only [set_pdf_links]
      cases h : set_pdf_link a
      · rfl
      · rw [ih e he' hn]

lemma store_article_of_mem {s : List ArticleRecord} {item : RSSItem}
    (h : item.link ∈ links s) : store_article s item = (false, s) := by
  have : s.any (fun r => r.link == item.link) = true := by
    simp only [links, List.mem_map] at h
    obtain ⟨r, hr, hl⟩ := h
    exact List.any_eq_true.mpr ⟨r, hr, by simp [hl]⟩
  simp [store_article, this]

lemma store_article_of_not_mem {s : List ArticleRecord} {item : RSSItem}
    (h : item.link ∉ links s) :
    store_article s item = (true, s ++ [toRecord s.length item]) := by
  have : s.any (fun r => r.link == item.link) = false := by
    rw [List.any_eq_false]
    intro r hr
    simp only [beq_iff_eq]
    intro hl
    exact h (by simp only [links, List.mem_map]; exact ⟨r, hr, hl⟩)
  simp [store_article, this]

lemma links_append_record (s : List ArticleRecord) (n : Nat)
    (item : RSSItem) :
    links (s ++ [toRecord n item]) = links s ++ [item.link] := by
  simp [links, toRecord]

lemma store_articles_cons (s : List ArticleRecord) (item : RSSItem)
    (rest : List RSSItem) :
    store_articles s (item :: rest) =
      (if (store_article s item).1
       then item :: (store_articles (store_article s item).2 rest).1
       else (store_articles (store_article s item).2 rest).1,
       (store_articles (store_article s item).2 rest).2) := rfl

lemma store_articles_new_not_mem :
    ∀ (items : List RSSItem) (s : List ArticleRecord) (e : RSSItem),
      e ∈ (store_articles s items).1 → e.link ∉ links s := by
  intro items
  induction items with
  | nil => intro s e he; simp [store_articles] at he
  | cons item rest ih =>
    intro s e he
    by_cases hm : item.link ∈ links s
    · rw [store_articles_cons, store_article_of_mem hm] at he
      simp only [Bool.false_eq_true, if_false] at he
      exact ih s e he
    · rw [store_articles_cons, store_article_of_not_mem hm] at he
      simp only [if_true] at he
      rcases List.mem_cons.mp he with rfl | he'
      · exact hm
      · have := ih _ e he'
        rw [links_append_record] at this
        intro hx
        exact this (List.mem_append_left _ hx)

lemma store_articles_links_eq :
    ∀ (items : List RSSItem) (s : List ArticleRecord),
      links (store_articles s items).2 =
        links s ++ ((store_articles s items).1).map (fun e => e.link) := by
  intro items
  induction items with
  | nil => intro s; simp [store_articles]
  | cons item rest ih =>
    intro s
    by_cases hm : item.link ∈ links s
    · rw [store_articles_cons, store_article_of_mem hm]
      simpa using ih s
    · rw [store_articles_cons, store_article_of_not_mem hm]
      simp only [if_true]
      rw [ih, links_append_record]
      simp

lemma store_articles_new_links_nodup :
    ∀ (items : List RSSItem) (s : List ArticleRecord),
      (((store_articles s items).1).map (fun e => e.link)).Nodup := by
  intro items
  induction items with
  | nil => intro s; simp [store_articles]
  | cons item rest ih =>
    intro s
    by_cases hm : item.link ∈ links s
    · rw [store_articles_cons, store_article_of_mem hm]
      simpa using ih s
    · rw [store_articles_cons, store_article_of_not_mem hm]
      simp only [if_true, List.map_cons, List.nodup_cons]
      refine ⟨?_, ih _⟩
      intro hmem
      rcases List.mem_map.mp hmem with ⟨e, he, hl⟩
      have hnot := store_articles_new_not_mem rest _ e he
      rw [links_append_record] at hnot
      exact hnot (by simp [hl])

lemma store_article_nodup {s : List ArticleRecord} (item : RSSItem)
    (h : (links s).Nodup) : (links (store_article s item).2).Nodup := by
  by_cases hm : item.link ∈ links s
  · rw [store_article_of_mem hm]; exact h
  · rw [store_article_of_not_mem hm, links_append_record]
    simp [List.nodup_append, h, hm]

lemma store_foldl_nodup :
    ∀ (items : List RSSItem) (s : List ArticleRecord),
      (links s).Nodup →
      (links (items.foldl (fun s item => (store_article s item).2) s)).Nodup := by
  intro items
  induction items with
  | nil => intro s h; exact h
  | cons item rest ih =>
    intro s h
    rw [List.foldl_cons]
    exact ih _ (store_article_nodup item h)

lemma store_articles_sublist :
    ∀ (items : List RSSItem) (s : List ArticleRecord),
      (store_articles s items).1.Sublist items := by
  intro items
  induction items with
  | nil => intro s; simp [store_articles]
  | cons item rest ih =>
    intro s
    rw [store_articles_cons]
    by_cases hb : (store_article s item).1
    · simp only [hb, if_true]
      exact (ih _).cons₂ item
    · simp only [hb, Bool.false_eq_true, if_false]
      exact (ih _).cons item

lemma store_articles_eq_keepNew :
    ∀ (items : List RSSItem) (s : List ArticleRecord),
      (store_articles s items).1 = keepNew (links s) items := by
  intro items
  induction items with
  | nil => intro s; simp [store_articles, keepNew]
  | cons item rest ih =>
    intro s
    by_cases hm : item.link ∈ links s
    · rw [store_articles_cons, store_article_of_mem hm]
      simp only [Bool.false_eq_true, if_false, keepNew, if_pos hm]
      exact ih s
    · rw [store_articles_cons, store_article_of_not_mem hm]
      simp only [if_true, keepNew, if_neg hm]
      rw [ih, links_append_record]

/-! ## Claim theorems -/

/-- C1: `Storage.store_article(entry)` returns `true` and persists the
record exactly when no existing record in the store shares `entry.link`,
and returns `false` performing no write otherwise; and after processing an
entry, a second entry with the same link is always rejected (returns
`false`), so in one run at most the first of two same-link entries is
accepted. -/
theorem store_article_spec (s : List ArticleRecord) (e : RSSItem) :
    ((store_article s e).1 = true ↔ e.link ∉ links s)
    ∧ ((store_article s e).1 = true →
        (store_article s e).2 = s ++ [toRecord s.length e])
    ∧ ((store_article s e).1 = false → (store_article s e).2 = s)
    ∧ (∀ e₂ : RSSItem, e₂.link = e.link →
        (store_article (store_article s e).2 e₂).1 = false) := by
  by_cases hm : e.link ∈ links s
  · rw [store_article_of_mem hm]
    refine ⟨by simp [hm], by simp, fun _ => rfl, ?_⟩
    intro e₂ h₂
    rw [store_article_of_mem (h₂ ▸ hm)]
  · rw [store_article_of_not_mem hm]
    refine ⟨by simp [hm], fun _ => rfl, by simp, ?_⟩
    intro e₂ h₂
    have : e₂.link ∈ links (s ++ [toRecord s.length e]) := by
      rw [links_append_record]; simp [h₂]
    rw [store_article_of_mem this]

/-- Witness for C1: on an empty store, `itemA` is accepted, and the
same-link `itemA2` processed next in the same run is rejected. -/
theorem store_article_spec_witness :
    (store_article [] itemA).1 = true
    ∧ (store_article (store_article [] itemA).2 itemA2).1 = false :=
  ⟨(store_article_spec [] itemA).1.mpr (by decide),
   (store_article_spec [] itemA).2.2.2 itemA2 (by decide)⟩

/-- C2: in every store state reachable from the empty store by a sequence
of `store_article` calls, no two persisted records share a link. -/
theorem store_links_nodup (items : List RSSItem) :
    (links (items.foldl (fun s item => (store_article s item).2) [])).Nodup :=
  store_foldl_nodup items [] (by simp [links])

/-- C3: `store_articles` never returns (hence never inserts) an entry
whose link is already in the store; the returned new items have pairwise
distinct links (so a link seen earlier in the same call is not returned
again); and the links persisted after the call are exactly the old links
followed by the links of the returned new items — composing calls, an
already-recorded link is never re-inserted nor returned by any subsequent
call. -/
theorem store_articles_idempotent (s : List ArticleRecord)
    (items : List RSSItem) :
    (∀ e ∈ (store_articles s items).1, e.link ∉ links s)
    ∧ ((((store_articles s items).1).map (fun e => e.link)).Nodup)
    ∧ (links (store_articles s items).2 =
        links s ++ ((store_articles s items).1).map (fun e => e.link)) :=
  ⟨fun e he => store_articles_new_not_mem items s e he,
   store_articles_new_links_nodup items s,
   store_articles_links_eq items s⟩

/-- Witness for C3: with link `"L"` already stored, feeding the same-link
`itemA2` and the fresh `itemB` returns only `itemB`, whose link was indeed
not yet recorded. -/
theorem store_articles_idempotent_witness :
    itemB.link ∉ links [recL] :=
  (store_articles_idempotent [recL] [itemA2, itemB]).1 itemB (by decide)

/-- C10: the list `store_articles` returns is a subsequence of its input
in the same relative order, and equals the spec-side characterization
`keepNew`: exactly the items accepted by `store_article` (those whose link
is neither stored already nor kept earlier in the call), in input order. -/
theorem store_articles_order (s : List ArticleRecord)
    (items : List RSSItem) :
    (store_articles s items).1.Sublist items
    ∧ (store_articles s items).1 = keepNew (links s) items :=
  ⟨store_articles_sublist items s, store_articles_eq_keepNew items s⟩

/-- C6: `send_daily_digest` always chooses the SendGrid backend when the
SendGrid API key is set (to a non-empty value), even when the AWS
credential is also set; chooses the SES backend when only the AWS access
key is set; and when neither is set it calls no backend and logs a
configuration error, returning normally. -/
theorem backend_selection (env : Env) (w : BackendWorld) (content : String)
    (r : String) (hr : env.RECIPIENT_EMAIL = some r) :
    (truthy env.SENDGRID_API_KEY = true →
      Event.callSendgrid ∈ (send_daily_digest env w content).2
      ∧ Event.callSes ∉ (send_daily_digest env w content).2)
    ∧ (truthy env.SENDGRID_API_KEY = false →
        truthy env.AWS_ACCESS_KEY_ID = true →
      Event.callSes ∈ (send_daily_digest env w content).2
      ∧ Event.callSendgrid ∉ (send_daily_digest env w content).2)
    ∧ (truthy env.SENDGRID_API_KEY = false →
        truthy env.AWS_ACCESS_KEY_ID = false →
      (send_daily_digest env w content).2 = [Event.logConfigError]
      ∧ (send_daily_digest env w content).1 = PyResult.val ()) := by
  refine ⟨?_, ?_, ?_⟩
  · intro hsg
    simp only [send_daily_digest, hr, hsg, if_true, call_sendgrid]
    constructor
    · exact List.mem_cons_self _ _
    · intro hmem
      rcases List.mem_cons.mp hmem with h | h
      · exact Event.noConfusion h
      · by_cases h202 : w.sendgrid_status ≠ 202 <;> simp [h202] at h
  · intro hsg haws
    simp only [send_daily_digest, hr, hsg, haws, Bool.false_eq_true,
      if_false, if_true, call_ses]
    constructor
    · exact List.mem_cons_self _ _
    · intro hmem
      rcases List.mem_cons.mp hmem with h | h
      · exact Event.noConfusion h
      · cases hw : w.ses_outcome <;> simp [hw] at h
  · intro hsg haws
    simp [send_daily_digest, hr, hsg, haws]

/-- Witness for C6: with both credentials set the SendGrid backend is
called, and with neither set the trace is exactly the configuration-error
log line. -/
theorem backend_selection_witness :
    Event.callSendgrid ∈ (send_daily_digest envBoth wOk "c").2
    ∧ (send_daily_digest envNoCreds wOk "c").2 = [Event.logConfigError] :=
  ⟨((backend_selection envBoth wOk "c" "to@example.com" rfl).1
      (by decide)).1,
   ((backend_selection envNoCreds wOk "c" "to@example.com" rfl).2.2
      (by decide) (by decide)).1⟩

/-- C9: both backend calls return normally on every input: `call_sendgrid`
logs an error when the response status is not 202 and still returns, and
`call_ses` logs and returns when the SES call raises a credentials error
or any other exception — delivery failure never propagates to the
caller. -/
theorem delivery_failures_swallowed (env : Env) (w : BackendWorld)
    (r su c : String) :
    ((call_sendgrid env w r su c).1 = PyResult.val ())
    ∧ (w.sendgrid_status ≠ 202 →
        Event.logSendgridError w.sendgrid_status ∈ (call_sendgrid env w r su c).2)
    ∧ ((call_ses env w r su c).1 = PyResult.val ())
    ∧ (w.ses_outcome = SesOutcome.credsError →
        Event.logSesCredsError ∈ (call_ses env w r su c).2)
    ∧ (w.ses_outcome = SesOutcome.otherError →
        Event.logSesError ∈ (call_ses env w r su c).2) := by
  refine ⟨rfl, ?_, rfl, ?_, ?_⟩
  · intro h; simp [call_sendgrid, h]
  · intro h; simp [call_ses, h]
  · intro h; simp [call_ses, h]

/-- Witness for C9: with a 500 SendGrid response and an SES exception,
both calls return normally and the failures are logged. -/
theorem delivery_failures_swallowed_witness :
    ((call_sendgrid envBoth wBad "r" "s" "c").1 = PyResult.val ())
    ∧ Event.logSendgridError 500 ∈ (call_sendgrid envBoth wBad "r" "s" "c").2
    ∧ Event.logSesError ∈ (call_ses envBoth wBad "r" "s" "c").2 :=
  ⟨(delivery_failures_swallowed envBoth wBad "r" "s" "c").1,
   (delivery_failures_swallowed envBoth wBad "r" "s" "c").2.1 (by decide),
   (delivery_failures_swallowed envBoth wBad "r" "s" "c").2.2.2.2 (by decide)⟩

/-- C4: in a run where the fetch succeeds and every link carries its `p`
parameter, the render step and the Delivery Adapter are invoked if and
only if the new-entries list returned by the deduplication store is
non-empty. -/
theorem run_conditional_send (env : Env) (w : BackendWorld)
    (resp : FeedResponse) (s0 : List ArticleRecord) (items : List RSSItem)
    (hok : resp.ok = true) (hset : set_pdf_links resp.entries = some items) :
    (Event.renderDigest ∈ (run_daily_digest env w resp s0).events ↔
      (store_articles s0 items).1 ≠ [])
    ∧ (Event.sendDigest ∈ (run_daily_digest env w resp s0).events ↔
      (store_articles s0 items).1 ≠ []) := by
  simp only [run_daily_digest, get_ars_feed, hok, if_true, hset]
  by_cases hnews : (store_articles s0 items).1 = []
  · simp [hnews]
  · have hne : (store_articles s0 items).1.isEmpty = false := by
      simpa [List.isEmpty_iff] using hnews
    simp [hne, hnews]

/-- Witness for C4: an ok feed with one unseen article against an empty
store yields a non-empty new list, and both the render and the send are
invoked. -/
theorem run_conditional_send_witness :
    Event.renderDigest ∈ (run_daily_digest envBoth wOk respGood []).events
    ∧ Event.sendDigest ∈ (run_daily_digest envBoth wOk respGood []).events := by
  have h := run_conditional_send envBoth wOk respGood [] [goodItemP] rfl
    (by decide)
  exact ⟨h.1.mpr (by decide), h.2.mpr (by decide)⟩

/-- C5 (evidence of the code bug): on a non-ok feed response the run logs
the fetch failure and stores nothing and sends nothing — but, contrary to
the claim, it does not exit cleanly: `get_ars_feed` falls off the end and
returns `None`, and the `for` loop of `store_articles` then raises an
uncaught `TypeError`, so the process exits with an error. -/
theorem run_fetch_error_crashes (env : Env) (w : BackendWorld)
    (resp : FeedResponse) (s0 : List ArticleRecord)
    (hok : resp.ok = false) :
    run_daily_digest env w resp s0 =
      ⟨PyResult.exc PyExc.typeError, s0,
       [Event.logFetchError resp.status_code]⟩ := by
  simp [run_daily_digest, get_ars_feed, hok]

/-- Witness for C5: the concrete 503 response — the run ends in the
uncaught `TypeError` with the store untouched and only the fetch-failure
log line emitted. -/
theorem run_fetch_error_crashes_witness :
    run_daily_digest envBoth wOk ⟨false, 503, []⟩ [] =
      ⟨PyResult.exc PyExc.typeError, [], [Event.logFetchError 503]⟩ :=
  run_fetch_error_crashes envBoth wOk ⟨false, 503, []⟩ [] rfl

/-- C8: when the fetch succeeds but some entry's link has no `p` query
parameter, the unguarded `parse_qs(...)["p"]` lookup raises an uncaught
`KeyError`: the run terminates exceptionally, the store is unchanged, and
no event (no render, no send, no log) is emitted. -/
theorem missing_p_crashes (env : Env) (w : BackendWorld)
    (resp : FeedResponse) (s0 : List ArticleRecord) (e : RSSItem)
    (hok : resp.ok = true) (he : e ∈ resp.entries)
    (hnone : derive_pdf_link e.link.data = none) :
    run_daily_digest env w resp s0 =
      ⟨PyResult.exc PyExc.keyError, s0, []⟩ := by
  have hset : set_pdf_links resp.entries = none :=
    set_pdf_links_eq_none _ e he (by simp [set_pdf_link, hnone])
  simp [run_daily_digest, get_ars_feed, hok, hset]

/-- Witness for C8: a feed whose one item's link has no query string makes
the run crash with the `KeyError`, storing and sending nothing. -/
theorem missing_p_crashes_witness :
    run_daily_digest envBoth wOk respBad [] =
      ⟨PyResult.exc PyExc.keyError, [], []⟩ :=
  missing_p_crashes envBoth wOk respBad [] badItem rfl (by decide)
    (by decide)

/-- C7: for a feed entry whose link is of the form `...?p=<v>` (the `?`
introducing the query, `p` its first parameter, `v` non-empty, with no
`&`, `#`, `=`-irrelevant, and no `%`/`+` so that the unmodelled
percent-decoding of `parse_qs` is the identity), the pdf link attached to
the entry is exactly the fixed template with `v` substituted. -/
theorem pdf_link_roundtrip (item : RSSItem) (pre v : List Char)
    (hlink : item.link.data = pre ++ '?' :: 'p' :: '=' :: v)
    (hq : '?' ∉ pre) (hhp : '#' ∉ pre) (hne : v ≠ [])
    (hamp : '&' ∉ v) (hhv : '#' ∉ v) (hpct : '%' ∉ v) (hplus : '+' ∉ v) :
    set_pdf_link item =
      some { item with
        pdf_link :=
          some (String.mk ("http://arstechnica.com?ARS_PDF=".data ++ v)) } := by
  rw [set_pdf_link, hlink,
    derive_pdf_link_shape pre v hq hhp hne hamp hhv]
  rfl

/-- Witness for C7: the link `.../index.html?p=1234567` yields exactly
`http://arstechnica.com?ARS_PDF=1234567`. -/
theorem pdf_link_roundtrip_witness :
    set_pdf_link goodItem = some goodItemP := by
  have h := pdf_link_roundtrip goodItem
    ("https://arstechnica.com/x/index.html".data) ("1234567".data)
    (by decide) (by decide) (by decide) (by decide) (by decide) (by decide)
    (by decide) (by decide)
  rw [h]
  rfl

end ArsDaily
